import Mathlib

/-!
Verification of the vulkano-start repository (a minimal Vulkan demo that
draws a triangle rotating about the origin).

The development shallowly embeds:
* the per-tick geometry computation of `src/main.rs` (lines 147–175):
  wall-clock phase, rotation angle, and the three triangle vertices;
* the redraw-tick control flow of the event loop in `src/main.rs`
  (swapchain recreation, image acquisition, and flush/present error
  handling), as a step function over an explicit loop state driven by an
  environment that supplies the outcomes of the fallible platform calls;
* `window_size_dependent_setup` of `src/win_utils.rs`;
* the queue-request portion of `init_vlk` of `src/vulk_utils.rs`.

Machine floating point (`f32`/`f64`) is modelled by the reals; `f64::rem_euclid`
is modelled by `remEuclid` below, which agrees with it for a positive modulus.
Fallible code (Rust `panic!` / indexing) is modelled with `Option` / an
explicit `panic` outcome.
-/

namespace VulkanoStart

/-! ## Geometry step (src/main.rs, lines 147–175)

```rust
let elapsed = SystemTime::now().duration_since(UNIX_EPOCH).unwrap().as_secs_f64();
const DURATION: f64 = 5.0;
let remainder = elapsed.rem_euclid(DURATION);
let delta = (remainder / DURATION) as f32;
let angle = delta * std::f32::consts::PI * 2.0;
const RADIUS: f32 = 0.5;
const ANGLE_OFFSET: f32 = (std::f32::consts::PI * 2.0) / 3.0;
let data = [
    Vertex { position: [angle.cos() * RADIUS, angle.sin() * RADIUS] },
    Vertex { position: [(angle + ANGLE_OFFSET).cos() * RADIUS,
                        (angle + ANGLE_OFFSET).sin() * RADIUS] },
    Vertex { position: [(angle - ANGLE_OFFSET).cos() * RADIUS,
                        (angle - ANGLE_OFFSET).sin() * RADIUS] },
];
```
The wall-clock input `elapsed` is taken as a parameter. -/

/-- The `DURATION` constant of the source: one full rotation every 5 seconds. -/
def DURATION : ℝ := 5.0

/-- The `RADIUS` constant of the source: circumradius of the triangle. -/
def RADIUS : ℝ := 0.5

/-- The `ANGLE_OFFSET` constant of the source: 120 degrees in radians. -/
noncomputable def ANGLE_OFFSET : ℝ := (Real.pi * 2.0) / 3.0

/-- Real model of `f64::rem_euclid`: for `y > 0` it returns
`x - y * ⌊x / y⌋ ∈ [0, y)`, the least non-negative representative, exactly
as Rust's `rem_euclid` does for a positive modulus. -/
noncomputable def remEuclid (x y : ℝ) : ℝ := x - y * ⌊x / y⌋

/-- The `angle` value as computed from the wall-clock time `elapsed`
(`remainder`, `delta`, `angle` of the source, inlined). -/
noncomputable def angleAt (elapsed : ℝ) : ℝ :=
  let remainder := remEuclid elapsed DURATION
  let delta := remainder / DURATION
  delta * Real.pi * 2.0

/-- First vertex (`data[0]`): `[angle.cos() * RADIUS, angle.sin() * RADIUS]`. -/
noncomputable def vertex0 (elapsed : ℝ) : ℝ × ℝ :=
  (Real.cos (angleAt elapsed) * RADIUS, Real.sin (angleAt elapsed) * RADIUS)

/-- Second vertex (`data[1]`): angle offset by `+ANGLE_OFFSET`. -/
noncomputable def vertex1 (elapsed : ℝ) : ℝ × ℝ :=
  (Real.cos (angleAt elapsed + ANGLE_OFFSET) * RADIUS,
   Real.sin (angleAt elapsed + ANGLE_OFFSET) * RADIUS)

/-- Third vertex (`data[2]`): angle offset by `-ANGLE_OFFSET`. -/
noncomputable def vertex2 (elapsed : ℝ) : ℝ × ℝ :=
  (Real.cos (angleAt elapsed - ANGLE_OFFSET) * RADIUS,
   Real.sin (angleAt elapsed - ANGLE_OFFSET) * RADIUS)

/-- The full triangle (`data`) computed by the geometry step. -/
noncomputable def triangleAt (elapsed : ℝ) : (ℝ × ℝ) × (ℝ × ℝ) × (ℝ × ℝ) :=
  (vertex0 elapsed, vertex1 elapsed, vertex2 elapsed)

/-- A point at distance `RADIUS` from the origin, squared form. -/
lemma cos_sin_on_circle (a : ℝ) :
    (Real.cos a * RADIUS) ^ 2 + (Real.sin a * RADIUS) ^ 2 = RADIUS ^ 2 := by
  have h := Real.sin_sq_add_cos_sq a
  unfold RADIUS
  nlinarith [h]

/-- The constant `ANGLE_OFFSET` is exactly `2π/3`. -/
lemma angle_offset_eq : ANGLE_OFFSET = 2 * Real.pi / 3 := by
  unfold ANGLE_OFFSET; ring

/-- C1: for every non-negative wall-clock time `t`, the three vertices of the
per-tick geometry step lie on the circle of radius 0.5 centered at the
origin, vertex `i` sitting at angle `θᵢ` with `θ₀ = angle`,
`θ₁ = angle + 2π/3`, `θ₂ = angle − 2π/3` (position `(0.5·cos θᵢ, 0.5·sin θᵢ)`),
so each vertex is separated from its neighbours by exactly `2π/3` radians. -/
theorem geometry_equilateral (t : ℝ) (ht : 0 ≤ t) :
    ((vertex0 t).1 ^ 2 + (vertex0 t).2 ^ 2 = RADIUS ^ 2 ∧
     (vertex1 t).1 ^ 2 + (vertex1 t).2 ^ 2 = RADIUS ^ 2 ∧
     (vertex2 t).1 ^ 2 + (vertex2 t).2 ^ 2 = RADIUS ^ 2) ∧
    (vertex0 t = (0.5 * Real.cos (angleAt t), 0.5 * Real.sin (angleAt t)) ∧
     vertex1 t = (0.5 * Real.cos (angleAt t + 2 * Real.pi / 3),
                  0.5 * Real.sin (angleAt t + 2 * Real.pi / 3)) ∧
     vertex2 t = (0.5 * Real.cos (angleAt t - 2 * Real.pi / 3),
                  0.5 * Real.sin (angleAt t - 2 * Real.pi / 3))) ∧
    ((angleAt t + 2 * Real.pi / 3) - angleAt t = 2 * Real.pi / 3 ∧
     angleAt t - (angleAt t - 2 * Real.pi / 3) = 2 * Real.pi / 3) := by
  have h1 : angleAt t + ANGLE_OFFSET = angleAt t + 2 * Real.pi / 3 := by
    rw [angle_offset_eq]
  have h2 : angleAt t - ANGLE_OFFSET = angleAt t - 2 * Real.pi / 3 := by
    rw [angle_offset_eq]
  refine ⟨⟨cos_sin_on_circle _, cos_sin_on_circle _, cos_sin_on_circle _⟩,
          ⟨?_, ?_, ?_⟩, by ring, by ring⟩
  · unfold vertex0 RADIUS
    simp only [Prod.mk.injEq]
    constructor <;> ring
  · unfold vertex1 RADIUS
    rw [h1]
    simp only [Prod.mk.injEq]
    constructor <;> ring
  · unfold vertex2 RADIUS
    rw [h2]
    simp only [Prod.mk.injEq]
    constructor <;> ring

/-- Witness for C1: the theorem instantiated at `t = 0`. -/
theorem geometry_equilateral_witness :
    (vertex0 0).1 ^ 2 + (vertex0 0).2 ^ 2 = RADIUS ^ 2 :=
  (geometry_equilateral 0 le_rfl).1.1

/-- C2: for every wall-clock time `t ≥ 0`, the triangle computed by the
geometry step at `t` equals the triangle computed at `t + 5.0`: the rotation
is periodic with period exactly 5 seconds. -/
theorem geometry_periodic (t : ℝ) (ht : 0 ≤ t) :
    triangleAt (t + 5.0) = triangleAt t := by
  have hrem : remEuclid (t + 5.0) DURATION = remEuclid t DURATION := by
    unfold remEuclid DURATION
    have hdiv : (t + 5.0) / 5.0 = t / 5.0 + 1 := by ring
    rw [hdiv, Int.floor_add_one]
    push_cast
    ring
  have hang : angleAt (t + 5.0) = angleAt t := by
    unfold angleAt
    rw [hrem]
  unfold triangleAt vertex0 vertex1 vertex2
  rw [hang]

/-- Witness for C2: the theorem instantiated at `t = 0`. -/
theorem geometry_periodic_witness : triangleAt (0 + 5.0) = triangleAt 0 :=
  geometry_periodic 0 le_rfl

/-- C3: at `t = 2.5` seconds into a period the geometry step yields
`phase = 0.5` and `angle = π`, vertex 0 `= (0.5·cos π, 0.5·sin π) = (-0.5, 0)`,
vertex 1 `= (0.5·cos(π+2π/3), 0.5·sin(π+2π/3))` and
vertex 2 `= (0.5·cos(π−2π/3), 0.5·sin(π−2π/3))`; in this real-valued model
the equalities are exact, hence well within the tolerance `1e-6`. -/
theorem geometry_at_half_period :
    remEuclid 2.5 DURATION / DURATION = 0.5 ∧
    angleAt 2.5 = Real.pi ∧
    vertex0 2.5 = (-0.5, 0) ∧
    vertex1 2.5 = (0.5 * Real.cos (Real.pi + 2 * Real.pi / 3),
                   0.5 * Real.sin (Real.pi + 2 * Real.pi / 3)) ∧
    vertex2 2.5 = (0.5 * Real.cos (Real.pi - 2 * Real.pi / 3),
                   0.5 * Real.sin (Real.pi - 2 * Real.pi / 3)) ∧
    |(vertex0 2.5).1 - (-0.5)| ≤ 1e-6 ∧ |(vertex0 2.5).2 - 0| ≤ 1e-6 := by
  have hfloor : ⌊(2.5 : ℝ) / 5.0⌋ = 0 := by
    rw [Int.floor_eq_zero_iff]
    constructor <;> norm_num
  have hrem : remEuclid 2.5 DURATION = 2.5 := by
    unfold remEuclid DURATION
    rw [hfloor]
    norm_num
  have hphase : remEuclid 2.5 DURATION / DURATION = 0.5 := by
    rw [hrem]; unfold DURATION; norm_num
  have hang : angleAt 2.5 = Real.pi := by
    show remEuclid 2.5 DURATION / DURATION * Real.pi * 2.0 = Real.pi
    rw [hphase]
    ring
  have hv0 : vertex0 2.5 = (-0.5, 0) := by
    unfold vertex0 RADIUS
    rw [hang, Real.cos_pi, Real.sin_pi]
    norm_num
  refine ⟨hphase, hang, hv0, ?_, ?_, ?_, ?_⟩
  · unfold vertex1 RADIUS
    rw [hang, angle_offset_eq]
    simp only [Prod.mk.injEq]
    constructor <;> ring
  · unfold vertex2 RADIUS
    rw [hang, angle_offset_eq]
    simp only [Prod.mk.injEq]
    constructor <;> ring
  · rw [hv0]; norm_num
  · rw [hv0]; norm_num

/-- The function `remEuclid` expressed through the fractional part of the quotient. -/
lemma remEuclid_eq_fract (x y : ℝ) (hy : y ≠ 0) :
    remEuclid x y = y * Int.fract (x / y) := by
  unfold remEuclid Int.fract
  field_simp

/-- The function `angleAt` in closed form: `2π·(t/5) − 2π·⌊t/5⌋`. -/
lemma angleAt_closed (t : ℝ) :
    angleAt t = 2 * Real.pi * (t / 5) - 2 * Real.pi * (⌊t / 5⌋ : ℤ) := by
  show remEuclid t DURATION / DURATION * Real.pi * 2.0 = _
  unfold remEuclid
  have hD : DURATION = 5 := by norm_num [DURATION]
  rw [hD]
  ring

/-- C4: for `0 ≤ t₁ < t₂` with `t₂ − t₁ < 5.0` (within one period), the first
vertex's angle at `t₂` is strictly greater than the angle at `t₁` modulo `2π`:
the forward angular difference `(angle t₂ − angle t₁) mod 2π` is strictly
positive, so the rotation is counter-clockwise and never reverses. -/
theorem geometry_monotonic (t1 t2 : ℝ) (h0 : 0 ≤ t1) (h12 : t1 < t2)
    (h5 : t2 - t1 < 5.0) :
    0 < remEuclid (angleAt t2 - angleAt t1) (2 * Real.pi) := by
  have hpi : (0:ℝ) < 2 * Real.pi := by positivity
  have hk : angleAt t2 - angleAt t1 =
      2 * Real.pi * ((t2 - t1) / 5) -
        2 * Real.pi * (((⌊t2 / 5⌋ - ⌊t1 / 5⌋ : ℤ)) : ℝ) := by
    rw [angleAt_closed t2, angleAt_closed t1]
    push_cast
    ring
  have hdiv : (angleAt t2 - angleAt t1) / (2 * Real.pi) =
      (t2 - t1) / 5 - ((⌊t2 / 5⌋ - ⌊t1 / 5⌋ : ℤ) : ℝ) := by
    rw [hk]
    field_simp
    ring
  have hlt : (t2 - t1) / 5 < 1 := by
    norm_num at h5
    linarith
  have hpos : 0 < (t2 - t1) / 5 := by
    have : 0 < t2 - t1 := by linarith
    positivity
  have hfract : Int.fract ((angleAt t2 - angleAt t1) / (2 * Real.pi)) =
      (t2 - t1) / 5 := by
    rw [hdiv, Int.fract_sub_int, Int.fract_eq_self.mpr ⟨le_of_lt hpos, hlt⟩]
  rw [remEuclid_eq_fract _ _ (ne_of_gt hpi), hfract]
  exact mul_pos hpi hpos

/-- Witness for C4: the theorem instantiated at `t₁ = 0`, `t₂ = 1`. -/
theorem geometry_monotonic_witness :
    0 < remEuclid (angleAt 1 - angleAt 0) (2 * Real.pi) :=
  geometry_monotonic 0 1 le_rfl one_pos (by norm_num)

/-! ## Redraw tick of the event loop (src/main.rs, lines 109–220)

The `Event::RedrawEventsCleared` arm is embedded as a step function on an
explicit loop state. The outcomes of the three fallible platform calls —
`swapchain.recreate_with_dimensions`, `swapchain::acquire_next_image` and
`then_signal_fence_and_flush` — are supplied by an environment record; the
observable per-tick effects (draw calls recorded, submissions, presents,
swapchain recreations, logged flush errors) are collected in a trace.
`panic!` is a distinguished terminal outcome. -/

/-- Errors of `swapchain.recreate_with_dimensions`
(`SwapchainCreationError`): the source matches `UnsupportedDimensions`
specially; every other variant is collapsed into `other`. -/
inductive SwapchainCreationError
  | unsupportedDimensions
  | other
deriving DecidableEq, Repr

/-- Errors of `swapchain::acquire_next_image` (`AcquireError`): the source
matches `OutOfDate` specially; every other variant is collapsed. -/
inductive AcquireError
  | outOfDate
  | other
deriving DecidableEq, Repr

/-- Errors of `then_signal_fence_and_flush` (`FlushError`): the source
matches `OutOfDate` specially; every other variant is collapsed. -/
inductive FlushError
  | outOfDate
  | other
deriving DecidableEq, Repr

/-- The in-flight frame marker (`previous_frame_end`): either the
trivially-already-complete marker `sync::now(device)` or a fence-signalled
flush future, identified by the id the environment assigned to it. -/
inductive GpuFuture
  | now
  | flushed (id : Nat)
deriving DecidableEq, Repr

instance {ε α : Type} [DecidableEq ε] [DecidableEq α] :
    DecidableEq (Except ε α) := fun x y =>
  match x, y with
  | .ok a, .ok b =>
      if h : a = b then .isTrue (by rw [h])
      else .isFalse (fun hc => h (Except.ok.inj hc))
  | .error a, .error b =>
      if h : a = b then .isTrue (by rw [h])
      else .isFalse (fun hc => h (Except.error.inj hc))
  | .ok _, .error _ => .isFalse Except.noConfusion
  | .error _, .ok _ => .isFalse Except.noConfusion

/-- Outcomes of the platform calls made during one redraw tick. -/
structure TickEnv where
  /-- Result of `swapchain.recreate_with_dimensions(dimensions)`: on success
  a fresh swapchain generation (only consulted when the resize flag is set). -/
  recreateResult : Except SwapchainCreationError Nat
  /-- Result of `swapchain::acquire_next_image`: on success
  `(image_num, suboptimal)`. -/
  acquireResult : Except AcquireError (Nat × Bool)
  /-- Result of `then_signal_fence_and_flush()`: on success the id of the
  returned fence-signal future. -/
  flushResult : Except FlushError Nat
deriving DecidableEq, Repr

/-- Loop-local mutable state of the event loop closure. -/
structure LoopState where
  /-- The `recreate_swapchain` flag. -/
  recreate_swapchain : Bool
  /-- The `previous_frame_end` in-flight marker. -/
  previous_frame_end : GpuFuture
  /-- Generation counter standing for the current `swapchain`/`framebuffers`
  pair; bumped exactly when recreation succeeds. -/
  swapchainGen : Nat
deriving DecidableEq, Repr

/-- Observable effects of one redraw tick. -/
structure TickTrace where
  /-- Number of draw calls recorded (`.draw(...)`). -/
  draws : Nat
  /-- Number of command-buffer submissions (`then_execute`). -/
  submits : Nat
  /-- Number of presentation requests (`then_swapchain_present`). -/
  presents : Nat
  /-- Number of successful swapchain recreations. -/
  recreations : Nat
  /-- Number of flush errors printed by the catch-all arm. -/
  loggedErrors : Nat
deriving DecidableEq, Repr

/-- The trace of a tick that returned before recording anything. -/
def emptyTrace : TickTrace :=
  { draws := 0, submits := 0, presents := 0, recreations := 0, loggedErrors := 0 }

/-- Result of one redraw tick: either the loop continues with a new state,
or the process aborts via `panic!`. -/
inductive TickOutcome
  | next (s : LoopState) (tr : TickTrace)
  | panic
deriving DecidableEq, Repr

/-- One `RedrawEventsCleared` tick of the event loop, translated arm by arm
from `src/main.rs` lines 109–220.  `cleanup_finished()` has no observable
effect in this model. -/
def redrawTick (env : TickEnv) (s : LoopState) : TickOutcome :=
  -- `if recreate_swapchain { ... }`
  let afterRecreate : Except TickOutcome (LoopState × Nat) :=
    if s.recreate_swapchain then
      match env.recreateResult with
      | .ok newGen =>
          -- `swapchain = new_swapchain; framebuffers = ...;
          --  recreate_swapchain = false;`
          .ok ({ s with recreate_swapchain := false, swapchainGen := newGen }, 1)
      | .error .unsupportedDimensions =>
          -- `Err(SwapchainCreationError::UnsupportedDimensions) => return`
          .error (.next s emptyTrace)
      | .error .other =>
          -- `Err(e) => panic!(...)`
          .error .panic
    else .ok (s, 0)
  match afterRecreate with
  | .error out => out
  | .ok (s1, recreations) =>
    -- `match swapchain::acquire_next_image(...)`
    match env.acquireResult with
    | .error .outOfDate =>
        -- `recreate_swapchain = true; return;`
        .next { s1 with recreate_swapchain := true }
          { emptyTrace with recreations := recreations }
    | .error .other => .panic
    | .ok (_image_num, suboptimal) =>
      -- `if suboptimal { recreate_swapchain = true; }`
      let s2 := if suboptimal then { s1 with recreate_swapchain := true } else s1
      -- geometry, buffer allocation, command recording (one draw),
      -- submission and presentation all happen unconditionally from here
      let tr := { draws := 1, submits := 1, presents := 1,
                  recreations := recreations, loggedErrors := 0 }
      -- `match future { ... }`
      match env.flushResult with
      | .ok fid =>
          .next { s2 with previous_frame_end := .flushed fid } tr
      | .error .outOfDate =>
          -- `recreate_swapchain = true;
          --  previous_frame_end = Some(sync::now(device));`
          .next { s2 with recreate_swapchain := true,
                          previous_frame_end := .now } tr
      | .error .other =>
          -- `println!(...); previous_frame_end = Some(sync::now(device));`
          .next { s2 with previous_frame_end := .now }
            { tr with loggedErrors := 1 }

/-- C5: on a redraw tick with the resize flag set, a chain recreation failure
with `UnsupportedDimensions` makes the tick return immediately: zero
draw/submit/present calls, no recreation, the state (resize flag included)
unchanged — so recreation is re-attempted next tick — and no panic; any
other chain-creation error is fatal. -/
theorem tick_unsupported_dimensions (env : TickEnv) (s : LoopState)
    (hflag : s.recreate_swapchain = true) :
    (env.recreateResult = .error .unsupportedDimensions →
       ∃ tr, redrawTick env s = .next s tr ∧
         tr.draws = 0 ∧ tr.submits = 0 ∧ tr.presents = 0 ∧
         tr.recreations = 0 ∧ s.recreate_swapchain = true ∧
         redrawTick env s ≠ .panic) ∧
    (env.recreateResult = .error .other → redrawTick env s = .panic) := by
  constructor
  · intro hr
    refine ⟨emptyTrace, ?_, rfl, rfl, rfl, rfl, hflag, ?_⟩ <;>
      simp [redrawTick, hflag, hr, emptyTrace]
  · intro hr
    simp [redrawTick, hflag, hr]

/-- Witness for C5 at a concrete environment and state. -/
theorem tick_unsupported_dimensions_witness :
    ∃ tr, redrawTick
        ⟨.error .unsupportedDimensions, .ok (0, false), .ok 0⟩
        ⟨true, .now, 0⟩ =
        .next ⟨true, .now, 0⟩ tr ∧
      tr.draws = 0 ∧ tr.submits = 0 ∧ tr.presents = 0 ∧
      tr.recreations = 0 ∧
      (LoopState.mk true .now 0).recreate_swapchain = true ∧
      redrawTick ⟨.error .unsupportedDimensions, .ok (0, false), .ok 0⟩
        ⟨true, .now, 0⟩ ≠ .panic :=
  (tick_unsupported_dimensions
    ⟨.error .unsupportedDimensions, .ok (0, false), .ok 0⟩
    ⟨true, .now, 0⟩ rfl).1 rfl

/-- C6: at the acquire step (resize flag clear so the tick reaches it
directly): an out-of-date acquisition sets the resize flag and aborts the
tick with no draw/submit/present; a merely sub-optimal acquisition proceeds
with the full tick (one draw, one submit, one present) but leaves the
resize flag set for the next tick; any other acquisition error panics. -/
theorem tick_acquire_errors (env : TickEnv) (s : LoopState)
    (hflag : s.recreate_swapchain = false) :
    (env.acquireResult = .error .outOfDate →
       ∃ s' tr, redrawTick env s = .next s' tr ∧
         tr.draws = 0 ∧ tr.submits = 0 ∧ tr.presents = 0 ∧
         s'.recreate_swapchain = true ∧
         s'.previous_frame_end = s.previous_frame_end) ∧
    (∀ n, env.acquireResult = .ok (n, true) →
       ∃ s' tr, redrawTick env s = .next s' tr ∧
         tr.draws = 1 ∧ tr.submits = 1 ∧ tr.presents = 1 ∧
         s'.recreate_swapchain = true) ∧
    (env.acquireResult = .error .other → redrawTick env s = .panic) := by
  refine ⟨fun hr => ?_, fun n hr => ?_, fun hr => ?_⟩
  · refine ⟨{ s with recreate_swapchain := true },
      { draws := 0, submits := 0, presents := 0, recreations := 0,
        loggedErrors := 0 }, ?_, rfl, rfl, rfl, rfl, rfl⟩
    simp [redrawTick, hflag, hr, emptyTrace]
  · cases hfl : env.flushResult with
    | ok fid =>
        refine ⟨{ s with recreate_swapchain := true,
                         previous_frame_end := .flushed fid },
          { draws := 1, submits := 1, presents := 1, recreations := 0,
            loggedErrors := 0 }, ?_, rfl, rfl, rfl, rfl⟩
        simp [redrawTick, hflag, hr, hfl]
    | error e =>
        cases e with
        | outOfDate =>
            refine ⟨{ s with recreate_swapchain := true,
                             previous_frame_end := .now },
              { draws := 1, submits := 1, presents := 1, recreations := 0,
                loggedErrors := 0 }, ?_, rfl, rfl, rfl, rfl⟩
            simp [redrawTick, hflag, hr, hfl]
        | other =>
            refine ⟨{ s with recreate_swapchain := true,
                             previous_frame_end := .now },
              { draws := 1, submits := 1, presents := 1, recreations := 0,
                loggedErrors := 1 }, ?_, rfl, rfl, rfl, rfl⟩
            simp [redrawTick, hflag, hr, hfl]
  · simp [redrawTick, hflag, hr]

/-- Witness for C6 at a concrete environment and state. -/
theorem tick_acquire_errors_witness :
    ∃ s' tr, redrawTick ⟨.ok 1, .error .outOfDate, .ok 0⟩
        ⟨false, .flushed 7, 0⟩ = .next s' tr ∧
      tr.draws = 0 ∧ tr.submits = 0 ∧ tr.presents = 0 ∧
      s'.recreate_swapchain = true ∧
      s'.previous_frame_end = (LoopState.mk false (.flushed 7) 0).previous_frame_end :=
  (tick_acquire_errors ⟨.ok 1, .error .outOfDate, .ok 0⟩
    ⟨false, .flushed 7, 0⟩ rfl).1 rfl

/-- C7: at the flush step (resize flag clear, acquisition succeeded without
sub-optimality): an out-of-date flush error sets the resize flag and resets
the in-flight marker to the trivially-complete `sync::now` marker without
panicking; any other flush error is logged and likewise resets the marker;
no flush error ever panics; on success the returned future becomes the new
in-flight marker. -/
theorem tick_flush_errors (env : TickEnv) (s : LoopState)
    (hflag : s.recreate_swapchain = false)
    (n : Nat) (hacq : env.acquireResult = .ok (n, false)) :
    (env.flushResult = .error .outOfDate →
       ∃ s' tr, redrawTick env s = .next s' tr ∧
         s'.recreate_swapchain = true ∧ s'.previous_frame_end = .now ∧
         tr.loggedErrors = 0) ∧
    (env.flushResult = .error .other →
       ∃ s' tr, redrawTick env s = .next s' tr ∧
         tr.loggedErrors = 1 ∧ s'.previous_frame_end = .now) ∧
    (∀ e, env.flushResult = .error e → redrawTick env s ≠ .panic) ∧
    (∀ fid, env.flushResult = .ok fid →
       ∃ s' tr, redrawTick env s = .next s' tr ∧
         s'.previous_frame_end = .flushed fid) := by
  refine ⟨fun hfl => ?_, fun hfl => ?_, fun e hfl => ?_, fun fid hfl => ?_⟩
  · refine ⟨{ s with recreate_swapchain := true, previous_frame_end := .now },
      { draws := 1, submits := 1, presents := 1, recreations := 0,
        loggedErrors := 0 }, ?_, rfl, rfl, rfl⟩
    simp [redrawTick, hflag, hacq, hfl]
  · refine ⟨{ s with previous_frame_end := .now },
      { draws := 1, submits := 1, presents := 1, recreations := 0,
        loggedErrors := 1 }, ?_, rfl, rfl⟩
    simp [redrawTick, hflag, hacq, hfl]
  · cases e <;> simp [redrawTick, hflag, hacq, hfl]
  · refine ⟨{ s with previous_frame_end := .flushed fid },
      { draws := 1, submits := 1, presents := 1, recreations := 0,
        loggedErrors := 0 }, ?_, rfl⟩
    simp [redrawTick, hflag, hacq, hfl]

/-- Witness for C7 at a concrete environment and state. -/
theorem tick_flush_errors_witness :
    ∃ s' tr, redrawTick ⟨.ok 1, .ok (2, false), .error .outOfDate⟩
        ⟨false, .flushed 3, 0⟩ = .next s' tr ∧
      s'.recreate_swapchain = true ∧ s'.previous_frame_end = .now ∧
      tr.loggedErrors = 0 :=
  (tick_flush_errors ⟨.ok 1, .ok (2, false), .error .outOfDate⟩
    ⟨false, .flushed 3, 0⟩ rfl 2 rfl).1 rfl

/-! ## Frame Target Builder (src/win_utils.rs)

```rust
pub fn window_size_dependent_setup(images, render_pass, dynamic_state) -> Vec<_> {
    let dimensions = images[0].dimensions();
    let viewport = Viewport {
        origin: [0.0, 0.0],
        dimensions: [dimensions[0] as f32, dimensions[1] as f32],
        depth_range: 0.0..1.0,
    };
    dynamic_state.viewports = Some(vec![viewport]);
    images.iter().map(|image| Framebuffer::start(render_pass).add(view).build())
        .collect()
}
```
Only the swapchain-image dimensions matter to this function's observable
behaviour, so an image is modelled by its pixel dimensions. `images[0]` on an
empty slice panics in Rust; the model returns `none` for that case. The
`&mut DynamicState` out-parameter becomes part of the returned value. -/

/-- A swapchain image, reduced to its pixel dimensions
(`SwapchainImage::dimensions()` yields `[width, height]`). -/
structure SwapchainImage where
  width : Nat
  height : Nat
deriving DecidableEq, Repr

/-- Model of `vulkano::pipeline::viewport::Viewport`. -/
structure Viewport where
  origin : ℝ × ℝ
  dimensions : ℝ × ℝ
  depth_range : ℝ × ℝ

/-- The `DynamicState` fields this repository ever touches: only
`viewports` is read or written (the other five fields are initialised to
`None` in `main` and never used). -/
structure DynamicState where
  viewports : Option (List Viewport)

/-- A framebuffer: wraps exactly one swapchain image as its sole color
attachment. -/
structure Framebuffer where
  attachment : SwapchainImage
deriving DecidableEq, Repr

/-- Model of `window_size_dependent_setup`: builds one framebuffer per image and sets
the dynamic state's viewport from `images[0]`'s dimensions. `none` models
the Rust panic on the out-of-bounds indexing `images[0]` when the slice is
empty. -/
def window_size_dependent_setup (images : List SwapchainImage)
    (dynamic_state : DynamicState) :
    Option (List Framebuffer × DynamicState) :=
  match images with
  | [] => none
  | img0 :: _ =>
    let dimensions := (img0.width, img0.height)
    let viewport : Viewport :=
      { origin := (0.0, 0.0)
        dimensions := ((dimensions.1 : ℝ), (dimensions.2 : ℝ))
        depth_range := (0.0, 1.0) }
    some (images.map (fun image => { attachment := image }),
          { dynamic_state with viewports := some [viewport] })

/-- C8: for every call on the current (non-empty, as produced by the
swapchain) images, `window_size_dependent_setup` returns exactly one frame
target per input image — each wrapping its image — and a viewport with
origin `(0,0)`, size equal to the image width × height, and depth range
`[0,1]`. -/
theorem window_setup_contract (img0 : SwapchainImage)
    (rest : List SwapchainImage) (ds : DynamicState) :
    ∃ fbs ds', window_size_dependent_setup (img0 :: rest) ds = some (fbs, ds') ∧
      fbs.length = (img0 :: rest).length ∧
      fbs = (img0 :: rest).map (fun image => { attachment := image }) ∧
      ds'.viewports = some
        [{ origin := (0.0, 0.0),
           dimensions := ((img0.width : ℝ), (img0.height : ℝ)),
           depth_range := (0.0, 1.0) }] := by
  refine ⟨(img0 :: rest).map (fun image => { attachment := image }),
    { ds with
      viewports := some [{ origin := (0.0, 0.0), dimensions := ((img0.width : ℝ), (img0.height : ℝ)), depth_range := (0.0, 1.0) }] },
    rfl, ?_, rfl, rfl⟩
  simp

/-- C10: `window_size_dependent_setup` is total exactly on non-empty image
lists: it reads `images[0]` before building any target, so the empty list
panics (modelled by `none`) instead of returning an empty target list, and
every non-empty list returns normally (`isSome`). -/
theorem window_setup_nonempty (images : List SwapchainImage)
    (ds : DynamicState) :
    (window_size_dependent_setup images ds).isSome = true ↔ images ≠ [] := by
  cases images with
  | nil => simp [window_size_dependent_setup]
  | cons img0 rest => simp [window_size_dependent_setup]

/-! ## Device initialisation (src/vulk_utils.rs, lines 60–77)

```rust
let queue_family = physical.queue_families()
    .find(|&q| q.supports_graphics() && surface.is_supported(q).unwrap_or(false))
    .unwrap();
let (device, mut queues) = Device::new(
    physical, physical.supported_features(), &device_ext,
    [(queue_family, 0.5)].iter().cloned(),
).unwrap();
let queue = queues.next().unwrap();
```
A queue family is modelled by its index plus the two capability bits the
selection predicate reads; `Device::new` yields one queue per request. -/

/-- A queue family as the selection predicate sees it:
`supports_graphics()` and `surface.is_supported(q).unwrap_or(false)`. -/
structure QueueFamily where
  index : Nat
  supports_graphics : Bool
  surface_supported : Bool
deriving DecidableEq, Repr

/-- A created device queue: the family it came from and the requested
priority. -/
structure Queue where
  family : QueueFamily
  priority : ℝ

/-- The queue request list passed to `Device::new`:
`[(queue_family, 0.5)]`. -/
def queue_requests (queue_family : QueueFamily) : List (QueueFamily × ℝ) :=
  [(queue_family, 0.5)]

/-- Model of `Device::new`: creates exactly one queue per `(family, priority)`
request, in order; `queues` is the iterator over them. -/
def device_new_queues (requests : List (QueueFamily × ℝ)) : List Queue :=
  requests.map (fun r => { family := r.1, priority := r.2 })

/-- The queue-selection and queue-creation portion of `init_vlk`:
finds the first graphics+present family, requests its queues, and returns
`queues.next()`. `none` models the `unwrap` panics. -/
def init_vlk (queue_families : List QueueFamily) : Option Queue := do
  let queue_family ← queue_families.find?
    (fun q => q.supports_graphics && q.surface_supported)
  let queues := device_new_queues (queue_requests queue_family)
  queues.head?

/-- C9: device initialisation requests exactly one queue, at the default
priority 0.5, from the selected queue family, and the queue `init_vlk`
returns is that single created queue. -/
theorem init_vlk_single_queue (queue_families : List QueueFamily)
    (qf : QueueFamily)
    (hfind : queue_families.find?
      (fun q => q.supports_graphics && q.surface_supported) = some qf) :
    queue_requests qf = [(qf, 0.5)] ∧
    (queue_requests qf).length = 1 ∧
    device_new_queues (queue_requests qf) = [{ family := qf, priority := 0.5 }] ∧
    init_vlk queue_families = some { family := qf, priority := 0.5 } := by
  refine ⟨rfl, rfl, rfl, ?_⟩
  unfold init_vlk
  rw [hfind]
  rfl

/-- Witness for C9 with a one-family device. -/
theorem init_vlk_single_queue_witness :
    queue_requests ⟨0, true, true⟩ = [(⟨0, true, true⟩, 0.5)] ∧
    (queue_requests ⟨0, true, true⟩).length = 1 ∧
    device_new_queues (queue_requests ⟨0, true, true⟩) =
      [{ family := ⟨0, true, true⟩, priority := 0.5 }] ∧
    init_vlk [⟨0, true, true⟩] =
      some { family := ⟨0, true, true⟩, priority := 0.5 } :=
  init_vlk_single_queue [⟨0, true, true⟩] ⟨0, true, true⟩ rfl

end VulkanoStart
